import Mathlib

/-!
# Verification of the Hokuyo laser-driver lifecycle core

Shallow embedding of `src/hokuyo_node/src/node/hokuyo_node.cpp`:
the `HokuyoDriver` lifecycle state machine (`doOpen`, `doClose`,
`doStart`, `doStop`), the acquisition loop (`scanThread`), the
identity mapping (`getID`) and the diagnostics summary
(`HokuyoNode::connectionStatus`).

Device calls (`laser_.open`, `laser_.getID`, `laser_.getStatus`,
`laser_.laserOn`, `laser_.calcLatency`, `laser_.requestScans`,
`laser_.serviceScan`, `laser_.close`, `laser_.stopScanning`) are
external library calls that may throw `hokuyo::Exception` (or the
subclass `hokuyo::CorruptedDataException`) or return a status code.
Each embedded operation therefore takes a behaviour record giving the
outcome of each device call it makes, and returns the updated driver
record together with the ordered trace of device calls, state
assignments and callback invocations it performed.
-/

/-- Operating states inherited from `driver_base::Driver`
(`CLOSED`, `OPENED`, `RUNNING`); the driver starts `CLOSED`. -/
inductive OperatingState
  | CLOSED
  | OPENED
  | RUNNING
deriving DecidableEq, Repr

/-- The `hokuyo_node::HokuyoConfig` fields the driver reads.  The
angle fields are IEEE doubles in the source; the lifecycle code never
inspects their values, only forwards them to device calls, so an
integer payload stands in for them. -/
structure HokuyoConfig where
  port : String
  min_ang : Int
  max_ang : Int
  intensity : Bool
  cluster : Int
  skip : Int
  model_04LX : Bool
  frame_id : String
  calibrate_time : Bool
deriving DecidableEq, Repr

/-- The mutable fields of `HokuyoDriver` (plus `state_` from the
`driver_base::Driver` base class).  `scan_thread_` is modelled as a
flag saying whether the `boost::shared_ptr<boost::thread>` holds a
thread handle. -/
structure HokuyoDriver where
  state_ : OperatingState
  config_ : HokuyoConfig
  device_status_ : String
  device_id_ : String
  connect_fail_ : String
  calibrated_ : Bool
  lost_scan_thread_count_ : Nat
  corrupted_scan_count_ : Nat
  scan_thread_ : Bool
deriving DecidableEq, Repr

/-- The `HokuyoDriver` constructor: `calibrated_ = false`, both
counters zero; `state_` starts `CLOSED` in the base class. -/
def initialDriver (cfg : HokuyoConfig) : HokuyoDriver :=
  { state_ := .CLOSED
    config_ := cfg
    device_status_ := ""
    device_id_ := ""
    connect_fail_ := ""
    calibrated_ := false
    lost_scan_thread_count_ := 0
    corrupted_scan_count_ := 0
    scan_thread_ := false }

/-- One observable event of a lifecycle call: a device-library call,
a `state_` assignment, a thread spawn/join, or a consumer-callback
invocation (`useScan_`).  `calcLatency` records whether the
calibration call returned normally. -/
inductive DriverAct
  | devOpen
  | devClose
  | devGetID
  | devGetStatus
  | laserOn
  | stopScanning
  | calcLatency (ok : Bool)
  | requestScans
  | serviceScan
  | spawnThread
  | joinWait (ms : Nat)
  | setState (s : OperatingState)
  | callback (frame : Nat)
deriving DecidableEq, Repr

deriving instance DecidableEq for Except

/-- Outcomes of the device calls made by `doOpen`:
`openExc` / `laserOnExc` / `calcExc` are `some msg` when the call
throws `hokuyo::Exception` with message `msg`; `idRet` / `statusRet`
either throw or return a string; `closeExc` is the outcome of the
`laser_.close()` performed by the `doClose()` in the catch block. -/
structure OpenBehavior where
  openExc : Option String
  idRet : Except String String
  statusRet : Except String String
  laserOnExc : Option String
  calcExc : Option String
  closeExc : Option String
deriving DecidableEq, Repr

/-- Outcome of the `laser_.close()` call inside `doClose`. -/
structure CloseBehavior where
  closeExc : Option String
deriving DecidableEq, Repr

/-- Outcomes of the device calls made by `doStart`: `laserOnExc` as in
`OpenBehavior`; `reqRet` is the `laser_.requestScans` call, which
either throws or returns an `int` status; `closeExc` feeds the
`doClose()` in the catch block. -/
structure StartBehavior where
  laserOnExc : Option String
  reqRet : Except String Int
  closeExc : Option String
deriving DecidableEq, Repr

/-- Outcome of `scan_thread_->timed_join(2000 ms)` inside `doStop`:
`joinOk = true` means the acquisition thread terminated within the
bound. -/
structure StopBehavior where
  joinOk : Bool
deriving DecidableEq, Repr

/-- `HokuyoDriver::getID`: reads the device identity and maps the
all-zero identity `"H0000000"` to `"unknown"`, returning every other
identity unchanged. -/
def HokuyoDriver.getID (rawId : String) : String :=
  if rawId = "H0000000" then "unknown" else rawId

/-- `HokuyoDriver::doClose`: tries `laser_.close()`, catching and
logging any exception, then unconditionally sets `state_ = CLOSED`. -/
def doClose (d : HokuyoDriver) (_b : CloseBehavior) :
    HokuyoDriver × List DriverAct :=
  ({ d with state_ := .CLOSED }, [.devClose, .setState .CLOSED])

/-- The catch block of `doOpen` / `doStart`: record the exception
message in `connect_fail_`, then `doClose()` and return. -/
def connectFailClose (d : HokuyoDriver) (e : String)
    (closeExc : Option String) (acts : List DriverAct) :
    HokuyoDriver × List DriverAct :=
  let r := doClose { d with connect_fail_ := e } ⟨closeExc⟩
  (r.1, acts ++ r.2)

/-- `HokuyoDriver::doOpen`: resets `device_id_` / `device_status_` to
`"unknown"`, opens the device, reads the mapped identity and the
status string, runs latency calibration when `calibrate_time` is set
and the gate `calibrated_` is still false (setting the gate after the
calibration call returns), then sets `state_ = OPENED`.  Any
`hokuyo::Exception` along the way records `connect_fail_` and
`doClose()`s. -/
def doOpen (d : HokuyoDriver) (b : OpenBehavior) :
    HokuyoDriver × List DriverAct :=
  let d0 := { d with device_id_ := "unknown", device_status_ := "unknown" }
  match b.openExc with
  | some e => connectFailClose d0 e b.closeExc [.devOpen]
  | none =>
    match b.idRet with
    | .error e => connectFailClose d0 e b.closeExc [.devOpen, .devGetID]
    | .ok rawId =>
      let d1 := { d0 with device_id_ := HokuyoDriver.getID rawId }
      match b.statusRet with
      | .error e =>
        connectFailClose d1 e b.closeExc [.devOpen, .devGetID, .devGetStatus]
      | .ok st =>
        let d2 := { d1 with device_status_ := st }
        if d2.config_.calibrate_time && !d2.calibrated_ then
          match b.laserOnExc with
          | some e =>
            connectFailClose d2 e b.closeExc
              [.devOpen, .devGetID, .devGetStatus, .laserOn]
          | none =>
            match b.calcExc with
            | some e =>
              connectFailClose d2 e b.closeExc
                [.devOpen, .devGetID, .devGetStatus, .laserOn,
                 .calcLatency false]
            | none =>
              ({ d2 with calibrated_ := true, state_ := .OPENED },
               [.devOpen, .devGetID, .devGetStatus, .laserOn,
                .calcLatency true, .setState .OPENED])
        else
          ({ d2 with state_ := .OPENED },
           [.devOpen, .devGetID, .devGetStatus, .setState .OPENED])

/-- `HokuyoDriver::doStart`: `laser_.laserOn()`, then
`laser_.requestScans(...)`; a non-zero returned status logs a warning,
increments `corrupted_scan_count_` and returns; on status 0 the state
becomes `RUNNING` and the scan thread is spawned.  An exception
records `connect_fail_` and `doClose()`s. -/
def doStart (d : HokuyoDriver) (b : StartBehavior) :
    HokuyoDriver × List DriverAct :=
  match b.laserOnExc with
  | some e => connectFailClose d e b.closeExc [.laserOn]
  | none =>
    match b.reqRet with
    | .error e => connectFailClose d e b.closeExc [.laserOn, .requestScans]
    | .ok status =>
      if status ≠ 0 then
        ({ d with corrupted_scan_count_ := d.corrupted_scan_count_ + 1 },
         [.laserOn, .requestScans])
      else
        ({ d with state_ := .RUNNING, scan_thread_ := true },
         [.laserOn, .requestScans, .setState .RUNNING, .spawnThread])

/-- The bound (milliseconds) passed to `scan_thread_->timed_join` in
`doStop`. -/
def stopJoinBoundMs : Nat := 2000

/-- `HokuyoDriver::doStop`: returns immediately unless `state_` is
`RUNNING`; otherwise sets `state_ = OPENED`, and if a thread handle is
held, waits up to `stopJoinBoundMs` for it — a failed join increments
`lost_scan_thread_count_`; finally resets the thread handle. -/
def doStop (d : HokuyoDriver) (b : StopBehavior) :
    HokuyoDriver × List DriverAct :=
  if d.state_ ≠ .RUNNING then (d, [])
  else
    let d1 := { d with state_ := .OPENED }
    if d1.scan_thread_ then
      if !b.joinOk then
        ({ d1 with
            lost_scan_thread_count_ := d1.lost_scan_thread_count_ + 1,
            scan_thread_ := false },
         [.setState .OPENED, .joinWait stopJoinBoundMs])
      else
        ({ d1 with scan_thread_ := false },
         [.setState .OPENED, .joinWait stopJoinBoundMs])
    else
      ({ d1 with scan_thread_ := false }, [.setState .OPENED])

/-- Outcome of one `laser_.serviceScan(scan_)` call inside the
acquisition loop: a normal return carrying the `int` status (and the
frame written into `scan_` when the status is 0), a
`hokuyo::CorruptedDataException`, or any other `hokuyo::Exception`
(with the behaviour of the `doClose()` run in its handler). -/
inductive ScanOutcome
  | ret (status : Int) (frame : Nat)
  | corrupt
  | fatal (msg : String) (closeExc : Option String)
deriving DecidableEq, Repr

/-- One event at the head of a `scanThread` loop iteration: either the
check `state_ == RUNNING` passed and `serviceScan` produced outcome
`o`, or the controlling thread concurrently wrote `state_ = OPENED`
(the write performed by `doStop`) before this iteration's check. -/
inductive LoopEvent
  | svc (o : ScanOutcome)
  | extStop
deriving DecidableEq, Repr

/-- The code after the `while` loop of `scanThread`:
`laser_.stopScanning()` (which just calls laser-off internally),
then `state_ = OPENED`. -/
def loopEpilogue (d : HokuyoDriver) :
    HokuyoDriver × List DriverAct × List Nat :=
  ({ d with state_ := .OPENED }, [.stopScanning, .setState .OPENED], [])

/-- `HokuyoDriver::scanThread`: `while (state_ == RUNNING)` request a
frame; a non-zero status breaks out of the loop (running the
epilogue); a `CorruptedDataException` is skipped (`continue`); any
other exception runs `doClose()` and returns immediately (no
epilogue); on status 0 the consumer callback `useScan_` is invoked
with the frame and the loop continues.  The event list supplies one
entry per iteration; an empty list with the loop still running
represents an in-flight thread (no exit actions yet).  Returns the
driver, the action trace and the frames delivered to the callback in
order. -/
def scanThread (d : HokuyoDriver) : List LoopEvent →
    HokuyoDriver × List DriverAct × List Nat
  | [] =>
    if d.state_ = .RUNNING then (d, [], [])
    else loopEpilogue d
  | ev :: rest =>
    if d.state_ = .RUNNING then
      match ev with
      | .extStop => scanThread { d with state_ := .OPENED } rest
      | .svc (.ret status frame) =>
        if status ≠ 0 then
          let r := loopEpilogue d
          (r.1, .serviceScan :: r.2.1, r.2.2)
        else
          let r := scanThread d rest
          (r.1, .serviceScan :: .callback frame :: r.2.1, frame :: r.2.2)
      | .svc .corrupt =>
        let r := scanThread d rest
        (r.1, .serviceScan :: r.2.1, r.2.2)
      | .svc (.fatal _msg closeExc) =>
        let r := doClose d ⟨closeExc⟩
        (r.1, .serviceScan :: r.2, [])
    else loopEpilogue d

/-- One lifecycle call together with the behaviour of the device
calls it makes. -/
inductive LifecycleCall
  | openC (b : OpenBehavior)
  | closeC (b : CloseBehavior)
  | startC (b : StartBehavior)
  | stopC (b : StopBehavior)
deriving DecidableEq, Repr

/-- The driver after one lifecycle call. -/
def stepCall (d : HokuyoDriver) : LifecycleCall → HokuyoDriver
  | .openC b => (doOpen d b).1
  | .closeC b => (doClose d b).1
  | .startC b => (doStart d b).1
  | .stopC b => (doStop d b).1

/-- `doOpen` succeeds (reaches `state_ = OPENED`) iff none of the
device calls it makes throws; whether calibration is attempted
depends on the configuration and the calibration gate. -/
def openOk (d : HokuyoDriver) (b : OpenBehavior) : Bool :=
  b.openExc.isNone && b.idRet.toOption.isSome && b.statusRet.toOption.isSome
    && (!(d.config_.calibrate_time && !d.calibrated_)
        || (b.laserOnExc.isNone && b.calcExc.isNone))

/-- `doStart` succeeds (spawns the thread) iff `laserOn` does not
throw and `requestScans` returns status 0. -/
def startOk (b : StartBehavior) : Bool :=
  b.laserOnExc.isNone &&
    match b.reqRet with
    | .ok s => s == 0
    | .error _ => false

/-- The §4.1 transition table, read as one conditional clause per row
(rows not listed leave the call unconstrained), plus the requirement
that the post-state lies in {CLOSED, OPENED, RUNNING}. -/
def matchesTable (pre : HokuyoDriver) (c : LifecycleCall)
    (post : HokuyoDriver) : Prop :=
  (post.state_ = .CLOSED ∨ post.state_ = .OPENED ∨ post.state_ = .RUNNING) ∧
  match c with
  | .openC b =>
      pre.state_ = .CLOSED →
        (openOk pre b = true → post.state_ = .OPENED) ∧
        (openOk pre b = false → post.state_ = .CLOSED)
  | .closeC _ => post.state_ = .CLOSED
  | .startC b =>
      pre.state_ = .OPENED →
        (startOk b = true → post.state_ = .RUNNING) ∧
        (startOk b = false →
          post.state_ = .OPENED ∨ post.state_ = .CLOSED)
  | .stopC _ =>
      (pre.state_ = .RUNNING → post.state_ = .OPENED) ∧
      (pre.state_ ≠ .RUNNING → post = pre)

/-- Every step of the call sequence satisfies `matchesTable`. -/
def stepsOk (d : HokuyoDriver) : List LifecycleCall → Prop
  | [] => True
  | c :: cs => matchesTable d c (stepCall d c) ∧ stepsOk (stepCall d c) cs

/-- A sequence of `doOpen` / `doClose` calls (for the calibration
claim, which quantifies over open/close sequences only). -/
inductive OpenCloseCall
  | openC (b : OpenBehavior)
  | closeC (b : CloseBehavior)
deriving DecidableEq, Repr

/-- Run a sequence of open/close calls, concatenating the traces. -/
def runOpenClose (d : HokuyoDriver) :
    List OpenCloseCall → HokuyoDriver × List DriverAct
  | [] => (d, [])
  | c :: cs =>
    let r :=
      match c with
      | .openC b => doOpen d b
      | .closeC b => doClose d b
    let rest := runOpenClose r.1 cs
    (rest.1, r.2 ++ rest.2)

/-- Number of `calcLatency` invocations (the `laser_.calcLatency`
device call) recorded in a trace. -/
def calcCount (as : List DriverAct) : Nat :=
  as.countP fun a => match a with | .calcLatency _ => true | _ => false

/-- Number of `calcLatency` invocations that returned normally. -/
def calcOkCount (as : List DriverAct) : Nat :=
  as.countP fun a => match a with | .calcLatency true => true | _ => false

/-- The `driver_base::Driver` state codes as stored in the char-typed
`state_` field, used by `HokuyoNode::connectionStatus`'s comparison
chain (three distinct codes; a char can in principle hold others). -/
def CLOSED_code : Int := 0

/-- `OPENED` state code. -/
def OPENED_code : Int := 1

/-- `RUNNING` state code. -/
def RUNNING_code : Int := 2

/-- The known-good device status string tested by the diagnostics. -/
def sensorGood : String := "Sensor works well."

/-- `HokuyoNode::connectionStatus`: the summary (level, message)
computed from the driver's state code, the last device status string,
and the node's stored connection-failure string, testing the cases in
the source's order.  (The trailing `status.add` lines attach the
read-only fields and do not affect the summary.) -/
def connectionStatus (state : Int) (device_status : String)
    (connect_fail : String) : Nat × String :=
  if state = CLOSED_code then (2, "Not connected. " ++ connect_fail)
  else if device_status ≠ sensorGood then (2, "Sensor not operational")
  else if state = RUNNING_code then (0, "Sensor streaming.")
  else if state = OPENED_code then (0, "Sensor open.")
  else (2, "Unknown sensor state.")

/-! Concrete fixtures used by witnesses and counterexamples. -/

/-- A configuration with the documented defaults and
`calibrate_time = false`. -/
def testConfig : HokuyoConfig :=
  { port := "/dev/ttyACM0"
    min_ang := -1
    max_ang := 1
    intensity := true
    cluster := 1
    skip := 1
    model_04LX := false
    frame_id := "laser"
    calibrate_time := false }

/-- The same configuration with `calibrate_time = true` (the
documented default). -/
def testConfigCal : HokuyoConfig :=
  { testConfig with calibrate_time := true }

/-- An open in which every device call succeeds. -/
def allOkOpen : OpenBehavior :=
  { openExc := none
    idRet := .ok "H0705370"
    statusRet := .ok sensorGood
    laserOnExc := none
    calcExc := none
    closeExc := none }

/-- An open in which `laser_.open` throws with message `"boom"`. -/
def openFailBoom : OpenBehavior :=
  { allOkOpen with openExc := some "boom" }

/-- An open in which `laser_.calcLatency` throws. -/
def calFailOpen : OpenBehavior :=
  { allOkOpen with calcExc := some "calibration failed" }

/-- A start in which `laser_.requestScans` returns the non-zero
status 1 (the device rejects the scan request). -/
def rejectStart : StartBehavior :=
  { laserOnExc := none, reqRet := .ok 1, closeExc := none }

/-- A start in which every device call succeeds
(`requestScans` returns 0). -/
def okStart : StartBehavior :=
  { laserOnExc := none, reqRet := .ok 0, closeExc := none }

/-- The driver after a fully successful `doOpen` from the initial
state. -/
def openedDriver : HokuyoDriver :=
  (doOpen (initialDriver testConfig) allOkOpen).1

/-- The driver after a fully successful `doOpen` and `doStart` from
the initial state: `state_ = RUNNING` with the scan thread spawned. -/
def runningDriver : HokuyoDriver :=
  (doStart openedDriver okStart).1

/-! ## Helper lemmas -/

/-- A driver whose state is not `RUNNING` exits the scan loop at the
next iteration check and runs the epilogue. -/
theorem scanThread_not_running (d : HokuyoDriver) (evs : List LoopEvent)
    (h : d.state_ ≠ .RUNNING) : scanThread d evs = loopEpilogue d := by
  cases evs <;> simp [scanThread, h]

/-- `doOpen` results in state `OPENED` exactly when no device call
throws (`openOk`), and `CLOSED` otherwise. -/
theorem doOpen_state (d : HokuyoDriver) (b : OpenBehavior) :
    (doOpen d b).1.state_
      = if openOk d b then .OPENED else .CLOSED := by
  obtain ⟨oe, idr, str, loe, ce, cle⟩ := b
  by_cases hc : (d.config_.calibrate_time && !d.calibrated_) = true <;>
    cases oe <;> cases idr <;> cases str <;> cases loe <;> cases ce <;>
      simp [doOpen, openOk, connectFailClose, doClose, Except.toOption, hc]

/-- Success of `doStart` (`startOk`) yields `RUNNING`; a thrown
exception yields `CLOSED`; a non-zero status leaves the state
unchanged. -/
theorem doStart_state (d : HokuyoDriver) (b : StartBehavior) :
    (startOk b = true → (doStart d b).1.state_ = .RUNNING) ∧
    (startOk b = false →
      (doStart d b).1.state_ = .CLOSED ∨ (doStart d b).1.state_ = d.state_) := by
  obtain ⟨loe, req, cle⟩ := b
  cases loe with
  | some e => rcases req with e2 | s <;>
      simp [doStart, startOk, connectFailClose, doClose]
  | none =>
    rcases req with e2 | s
    · simp [doStart, startOk, connectFailClose, doClose]
    · by_cases hs : s = 0 <;>
        simp [doStart, startOk, connectFailClose, doClose, hs]

/-! ## Claim theorems -/

/-- C10: `getID()` returns the literal `"unknown"` when the device
reports the identity `"H0000000"`, and returns the device-reported
identity unchanged in every other case. -/
theorem c10_getID_mapping :
    HokuyoDriver.getID "H0000000" = "unknown" ∧
    ∀ s : String, s ≠ "H0000000" → HokuyoDriver.getID s = s := by
  refine ⟨rfl, fun s hs => ?_⟩
  simp [HokuyoDriver.getID, hs]

/-- Witness for C10 at the concrete identity `"H0705370"`. -/
theorem c10_getID_mapping_witness :
    HokuyoDriver.getID "H0705370" = "H0705370" :=
  c10_getID_mapping.2 "H0705370" (by decide)

/-- C9: the diagnostics severity mapping of
`HokuyoNode::connectionStatus`, with the cases tested in the source's
order: `CLOSED` → error containing the stored failure string; a device
status differing from the known-good string → error; `RUNNING` →
ok/streaming; `OPENED` → ok/open; any other state code →
error/unknown. -/
theorem c9_connectionStatus_severity :
    ∀ (state : Int) (ds cf : String),
      (state = CLOSED_code →
        connectionStatus state ds cf = (2, "Not connected. " ++ cf)) ∧
      (state ≠ CLOSED_code → ds ≠ sensorGood →
        connectionStatus state ds cf = (2, "Sensor not operational")) ∧
      (state ≠ CLOSED_code → ds = sensorGood → state = RUNNING_code →
        connectionStatus state ds cf = (0, "Sensor streaming.")) ∧
      (state ≠ CLOSED_code → ds = sensorGood → state ≠ RUNNING_code →
        state = OPENED_code →
        connectionStatus state ds cf = (0, "Sensor open.")) ∧
      (state ≠ CLOSED_code → ds = sensorGood → state ≠ RUNNING_code →
        state ≠ OPENED_code →
        connectionStatus state ds cf = (2, "Unknown sensor state.")) := by
  intro state ds cf
  simp only [connectionStatus, CLOSED_code, OPENED_code, RUNNING_code]
  refine ⟨?_, ?_, ?_, ?_, ?_⟩ <;> intros <;> simp [*]

/-- Witness for C9: the closed-state summary carries the failure
string, and an out-of-range state code reports "unknown". -/
theorem c9_connectionStatus_severity_witness :
    connectionStatus CLOSED_code "unknown" "boom"
        = (2, "Not connected. boom") ∧
    connectionStatus 3 sensorGood "" = (2, "Unknown sensor state.") :=
  ⟨(c9_connectionStatus_severity CLOSED_code "unknown" "boom").1 rfl,
   (c9_connectionStatus_severity 3 sensorGood "").2.2.2.2
     (by decide) rfl (by decide) (by decide)⟩

/-- C8 counterexample: a failed open records `connect_fail_ =
"boom"`; the next open succeeds (`openOk` holds and the state becomes
`OPENED`) yet `connect_fail_` is still `"boom"`, not the empty
string — the code never clears it. -/
theorem c8_counterexample :
    openOk (doOpen (initialDriver testConfig) openFailBoom).1 allOkOpen
        = true ∧
    (doOpen (doOpen (initialDriver testConfig) openFailBoom).1
        allOkOpen).1.state_ = OperatingState.OPENED ∧
    (doOpen (doOpen (initialDriver testConfig) openFailBoom).1
        allOkOpen).1.connect_fail_ = "boom" ∧
    (doOpen (doOpen (initialDriver testConfig) openFailBoom).1
        allOkOpen).1.connect_fail_ ≠ "" := by
  refine ⟨by decide, by decide, by decide, by decide⟩

/-- C8 amended: `connect_fail_` holds the message of the last
exception-reported failure of open or start and is never cleared — a
successful `doOpen` leaves it exactly as it was. -/
theorem c8_connect_fail_persists :
    ∀ (d : HokuyoDriver) (b : OpenBehavior) (sb : StartBehavior)
      (e : String),
      (openOk d b = true →
        (doOpen d b).1.connect_fail_ = d.connect_fail_) ∧
      (b.openExc = some e → (doOpen d b).1.connect_fail_ = e) ∧
      (sb.laserOnExc = some e → (doStart d sb).1.connect_fail_ = e) := by
  intro d b sb e
  refine ⟨?_, ?_, ?_⟩
  · intro h
    obtain ⟨oe, idr, str, loe, ce, cle⟩ := b
    by_cases hc : (d.config_.calibrate_time && !d.calibrated_) = true <;>
      cases oe <;> cases idr <;> cases str <;> cases loe <;> cases ce <;>
        simp [doOpen, openOk, connectFailClose, doClose,
          Except.toOption, hc] at h ⊢
  · intro h
    simp [doOpen, h, connectFailClose, doClose]
  · intro h
    simp [doStart, h, connectFailClose, doClose]

/-- Witness for C8 amended: a successful open from the initial state
leaves `connect_fail_` at its initial (empty) value, and a failed
open records the message. -/
theorem c8_connect_fail_persists_witness :
    (doOpen (initialDriver testConfig) allOkOpen).1.connect_fail_
        = (initialDriver testConfig).connect_fail_ ∧
    (doOpen (initialDriver testConfig) openFailBoom).1.connect_fail_
        = "boom" :=
  ⟨(c8_connect_fail_persists (initialDriver testConfig) allOkOpen
      okStart "boom").1 (by decide),
   (c8_connect_fail_persists (initialDriver testConfig) openFailBoom
      okStart "boom").2.1 rfl⟩

/-- C4 counterexample: `doStart` invoked in state `CLOSED` with the
device rejecting the scan request leaves the state `CLOSED`, not
`OPENED`, while still incrementing the counter — so the claim's
"for every state … leaves the state Opened" fails. -/
theorem c4_counterexample :
    (doStart (initialDriver testConfig) rejectStart).1.state_
        = OperatingState.CLOSED ∧
    (doStart (initialDriver testConfig) rejectStart).1.state_
        ≠ OperatingState.OPENED ∧
    (doStart (initialDriver testConfig) rejectStart).1.corrupted_scan_count_
        = 1 := by
  refine ⟨by decide, by decide, by decide⟩

/-- C4 amended: when `requestScans` returns a non-zero status,
`doStart` increments `corrupted_scan_count_` by exactly 1, leaves the
state unchanged (hence `OPENED` when invoked in `OPENED`), and does
not spawn an acquisition thread. -/
theorem c4_start_reject :
    ∀ (d : HokuyoDriver) (b : StartBehavior) (s : Int),
      b.laserOnExc = none → b.reqRet = Except.ok s → s ≠ 0 →
      (doStart d b).1.state_ = d.state_ ∧
      (d.state_ = .OPENED → (doStart d b).1.state_ = .OPENED) ∧
      (doStart d b).1.corrupted_scan_count_
          = d.corrupted_scan_count_ + 1 ∧
      (doStart d b).1.scan_thread_ = d.scan_thread_ ∧
      DriverAct.spawnThread ∉ (doStart d b).2 := by
  intro d b s h1 h2 h3
  simp [doStart, h1, h2, h3]

/-- Witness for C4 amended: rejection in state `OPENED` keeps the
state `OPENED` and bumps the counter from 0 to 1. -/
theorem c4_start_reject_witness :
    (doStart openedDriver rejectStart).1.state_ = OperatingState.OPENED ∧
    (doStart openedDriver rejectStart).1.corrupted_scan_count_
        = openedDriver.corrupted_scan_count_ + 1 :=
  ⟨(c4_start_reject openedDriver rejectStart 1 rfl rfl
      (by decide)).2.1 (by decide),
   (c4_start_reject openedDriver rejectStart 1 rfl rfl
      (by decide)).2.2.1⟩

/-- C7: `doStop` in state `RUNNING` with a live thread sets the state
to `OPENED` and only then waits on the thread with the 2000 ms bound;
a failed join increments `lost_scan_thread_count_` by exactly 1, a
successful one leaves it unchanged, and the state is `OPENED` on
return either way; in any other state `doStop` is a complete no-op. -/
theorem c7_stop_contract :
    ∀ (d : HokuyoDriver) (b : StopBehavior),
      (d.state_ = .RUNNING → d.scan_thread_ = true →
        (doStop d b).2
            = [.setState .OPENED, .joinWait stopJoinBoundMs] ∧
        stopJoinBoundMs = 2000 ∧
        (doStop d b).1.state_ = .OPENED ∧
        (b.joinOk = false →
          (doStop d b).1.lost_scan_thread_count_
              = d.lost_scan_thread_count_ + 1) ∧
        (b.joinOk = true →
          (doStop d b).1.lost_scan_thread_count_
              = d.lost_scan_thread_count_) ∧
        (doStop d b).1.corrupted_scan_count_ = d.corrupted_scan_count_) ∧
      (d.state_ ≠ .RUNNING → doStop d b = (d, [])) := by
  intro d b
  constructor
  · intro hs ht
    cases hj : b.joinOk <;>
      simp [doStop, hs, ht, hj, stopJoinBoundMs]
  · intro hs
    simp [doStop, hs]

/-- Witness for C7: stopping the concrete running driver with a
timed-out join yields `OPENED` and bumps the lost-thread counter. -/
theorem c7_stop_contract_witness :
    (doStop runningDriver ⟨false⟩).1.state_ = OperatingState.OPENED ∧
    (doStop runningDriver ⟨false⟩).1.lost_scan_thread_count_
        = runningDriver.lost_scan_thread_count_ + 1 ∧
    doStop openedDriver ⟨false⟩ = (openedDriver, []) :=
  ⟨((c7_stop_contract runningDriver ⟨false⟩).1 (by decide)
      (by decide)).2.2.1,
   ((c7_stop_contract runningDriver ⟨false⟩).1 (by decide)
      (by decide)).2.2.2.1 rfl,
   (c7_stop_contract openedDriver ⟨false⟩).2 (by decide)⟩

/-- C6: a `CorruptedDataException` inside the loop skips the
iteration and continues: the resulting driver (state and counters)
and the delivered frames are exactly those of the same run without
the corrupted iteration, and the corrupted request contributes only
its `serviceScan` call to the trace — no callback. -/
theorem c6_corrupt_skip :
    ∀ (d : HokuyoDriver) (rest : List LoopEvent),
      d.state_ = .RUNNING →
      (scanThread d (.svc .corrupt :: rest)).1 = (scanThread d rest).1 ∧
      (scanThread d (.svc .corrupt :: rest)).2.2
          = (scanThread d rest).2.2 ∧
      (scanThread d (.svc .corrupt :: rest)).2.1
          = .serviceScan :: (scanThread d rest).2.1 := by
  intro d rest hs
  refine ⟨?_, ?_, ?_⟩ <;> simp [scanThread, hs]

/-- Witness for C6: on the concrete running driver, a corrupted frame
followed by a good frame delivers exactly the good frame. -/
theorem c6_corrupt_skip_witness :
    (scanThread runningDriver
        [.svc .corrupt, .svc (.ret 0 42)]).2.2
      = (scanThread runningDriver [.svc (.ret 0 42)]).2.2 :=
  (c6_corrupt_skip runningDriver [.svc (.ret 0 42)] (by decide)).2.1

/-- Frames with status 0 are delivered in order until a fatal
exception, which closes the device and returns from the thread at
once: everything after the fatal event is ignored. -/
theorem scanThread_frames_fatal :
    ∀ (frames : List Nat) (d : HokuyoDriver) (e : String)
      (ce : Option String) (rest : List LoopEvent),
      d.state_ = .RUNNING →
      scanThread d
          (frames.map (fun n => LoopEvent.svc (.ret 0 n))
            ++ LoopEvent.svc (.fatal e ce) :: rest)
        = ({ d with state_ := .CLOSED },
           (frames.flatMap fun n =>
              [DriverAct.serviceScan, DriverAct.callback n])
             ++ [DriverAct.serviceScan, DriverAct.devClose,
                 DriverAct.setState .CLOSED],
           frames) := by
  intro frames
  induction frames with
  | nil =>
    intro d e ce rest hs
    simp [scanThread, hs, doClose]
  | cons n ns ih =>
    intro d e ce rest hs
    simp [scanThread, hs, ih d e ce rest hs]

/-- C3: after a successful open and start, ten status-0 frames
followed by a fatal device fault on the eleventh request deliver
exactly those ten frames in order to the callback, close the device
(state `CLOSED`), and produce no further callback no matter what
events follow. -/
theorem c3_fatal_on_eleventh :
    ∀ (d0 : HokuyoDriver) (bo : OpenBehavior) (bs : StartBehavior)
      (f1 f2 f3 f4 f5 f6 f7 f8 f9 f10 : Nat) (e : String)
      (ce : Option String) (rest : List LoopEvent),
      openOk d0 bo = true → startOk bs = true →
      scanThread (doStart (doOpen d0 bo).1 bs).1
          ([.svc (.ret 0 f1), .svc (.ret 0 f2), .svc (.ret 0 f3),
            .svc (.ret 0 f4), .svc (.ret 0 f5), .svc (.ret 0 f6),
            .svc (.ret 0 f7), .svc (.ret 0 f8), .svc (.ret 0 f9),
            .svc (.ret 0 f10), .svc (.fatal e ce)] ++ rest)
        = ({ (doStart (doOpen d0 bo).1 bs).1 with state_ := .CLOSED },
           [.serviceScan, .callback f1, .serviceScan, .callback f2,
            .serviceScan, .callback f3, .serviceScan, .callback f4,
            .serviceScan, .callback f5, .serviceScan, .callback f6,
            .serviceScan, .callback f7, .serviceScan, .callback f8,
            .serviceScan, .callback f9, .serviceScan, .callback f10,
            .serviceScan, .devClose, .setState .CLOSED],
           [f1, f2, f3, f4, f5, f6, f7, f8, f9, f10]) := by
  intro d0 bo bs f1 f2 f3 f4 f5 f6 f7 f8 f9 f10 e ce rest ho hst
  have hrun : (doStart (doOpen d0 bo).1 bs).1.state_ = .RUNNING :=
    (doStart_state (doOpen d0 bo).1 bs).1 hst
  have h := scanThread_frames_fatal
    [f1, f2, f3, f4, f5, f6, f7, f8, f9, f10]
    (doStart (doOpen d0 bo).1 bs).1 e ce rest hrun
  simpa using h

/-- Witness for C3 with the concrete driver and frames 1..10. -/
theorem c3_fatal_on_eleventh_witness :
    scanThread
        (doStart (doOpen (initialDriver testConfig) allOkOpen).1
          okStart).1
        ([.svc (.ret 0 1), .svc (.ret 0 2), .svc (.ret 0 3),
          .svc (.ret 0 4), .svc (.ret 0 5), .svc (.ret 0 6),
          .svc (.ret 0 7), .svc (.ret 0 8), .svc (.ret 0 9),
          .svc (.ret 0 10), .svc (.fatal "fatal fault" none)] ++ [])
      = ({ (doStart (doOpen (initialDriver testConfig) allOkOpen).1
              okStart).1 with state_ := .CLOSED },
         [.serviceScan, .callback 1, .serviceScan, .callback 2,
          .serviceScan, .callback 3, .serviceScan, .callback 4,
          .serviceScan, .callback 5, .serviceScan, .callback 6,
          .serviceScan, .callback 7, .serviceScan, .callback 8,
          .serviceScan, .callback 9, .serviceScan, .callback 10,
          .serviceScan, .devClose, .setState .CLOSED],
         [1, 2, 3, 4, 5, 6, 7, 8, 9, 10]) :=
  c3_fatal_on_eleventh (initialDriver testConfig) allOkOpen okStart
    1 2 3 4 5 6 7 8 9 10 "fatal fault" none [] (by decide) (by decide)

/-- C2 counterexample: when the loop terminates because of a fatal
device fault, the thread exits without ever calling
`laser_.stopScanning()` (the laser-off call) and with the state
`CLOSED`, not `OPENED`. -/
theorem c2_counterexample :
    DriverAct.stopScanning
        ∉ (scanThread runningDriver [.svc (.fatal "fault" none)]).2.1 ∧
    (scanThread runningDriver [.svc (.fatal "fault" none)]).1.state_
        = OperatingState.CLOSED ∧
    (scanThread runningDriver [.svc (.fatal "fault" none)]).1.state_
        ≠ OperatingState.OPENED := by
  refine ⟨by decide, by decide, by decide⟩

/-- C2 amended: on loop exit caused by `stop()`'s state write or by a
non-zero `serviceScan` status, the thread calls
`laser_.stopScanning()` (laser off) and sets the state to `OPENED`
before exiting; on any other device fault it instead runs `doClose`
(device closed, state `CLOSED`) and returns immediately, skipping the
laser-off epilogue. -/
theorem c2_loop_exit :
    ∀ (d : HokuyoDriver) (rest : List LoopEvent) (s : Int) (f : Nat)
      (e : String) (ce : Option String),
      d.state_ = .RUNNING →
      (scanThread d (.extStop :: rest)
          = ({ d with state_ := .OPENED },
             [.stopScanning, .setState .OPENED], [])) ∧
      (s ≠ 0 →
        scanThread d (.svc (.ret s f) :: rest)
          = ({ d with state_ := .OPENED },
             [.serviceScan, .stopScanning, .setState .OPENED], [])) ∧
      (scanThread d (.svc (.fatal e ce) :: rest)
          = ({ d with state_ := .CLOSED },
             [.serviceScan, .devClose, .setState .CLOSED], [])) := by
  intro d rest s f e ce hs
  refine ⟨?_, ?_, ?_⟩
  · have h1 : scanThread d (.extStop :: rest)
        = scanThread { d with state_ := .OPENED } rest := by
      simp [scanThread, hs]
    rw [h1, scanThread_not_running _ _ (by simp)]
    simp [loopEpilogue]
  · intro hsz
    simp [scanThread, hs, hsz, loopEpilogue]
  · simp [scanThread, hs, doClose]

/-- Witness for C2 amended: the three exit modes on the concrete
running driver. -/
theorem c2_loop_exit_witness :
    scanThread runningDriver [.extStop]
        = ({ runningDriver with state_ := .OPENED },
           [.stopScanning, .setState .OPENED], []) ∧
    scanThread runningDriver [.svc (.ret 7 0)]
        = ({ runningDriver with state_ := .OPENED },
           [.serviceScan, .stopScanning, .setState .OPENED], []) :=
  ⟨(c2_loop_exit runningDriver [] 7 0 "e" none (by decide)).1,
   (c2_loop_exit runningDriver [] 7 0 "e" none (by decide)).2.1
     (by decide)⟩

/-- `calcOkCount` distributes over trace concatenation. -/
theorem calcOkCount_append (xs ys : List DriverAct) :
    calcOkCount (xs ++ ys) = calcOkCount xs + calcOkCount ys := by
  simp [calcOkCount, List.countP_append]

/-- Per-open accounting of the calibration gate: an already-calibrated
driver performs no `calcLatency` call at all; an uncalibrated driver
performs at most one successful `calcLatency` call, and the gate is
set exactly when that call succeeded. -/
theorem doOpen_calc (d : HokuyoDriver) (b : OpenBehavior) :
    (d.calibrated_ = true →
      calcCount (doOpen d b).2 = 0 ∧ calcOkCount (doOpen d b).2 = 0 ∧
        (doOpen d b).1.calibrated_ = true) ∧
    (d.calibrated_ = false →
      (calcOkCount (doOpen d b).2 = 0 ∧
        (doOpen d b).1.calibrated_ = false) ∨
      (calcOkCount (doOpen d b).2 = 1 ∧
        (doOpen d b).1.calibrated_ = true)) := by
  obtain ⟨oe, idr, str, loe, ce, cle⟩ := b
  constructor
  · intro h
    cases oe <;> cases idr <;> cases str <;> cases loe <;> cases ce <;>
      simp [doOpen, connectFailClose, doClose, calcCount, calcOkCount, h,
        List.countP_cons]
  · intro h
    by_cases hct : d.config_.calibrate_time = true <;>
      cases oe <;> cases idr <;> cases str <;> cases loe <;> cases ce <;>
        simp [doOpen, connectFailClose, doClose, calcOkCount, h, hct,
          List.countP_cons]

/-- `doClose` neither touches the calibration gate nor calls
`calcLatency`. -/
theorem doClose_calc (d : HokuyoDriver) (b : CloseBehavior) :
    (doClose d b).1.calibrated_ = d.calibrated_ ∧
    calcOkCount (doClose d b).2 = 0 := by
  simp [doClose, calcOkCount, List.countP_cons]

/-- Over any open/close sequence: a calibrated driver never runs a
successful calibration again, and an uncalibrated one runs at most
one. -/
theorem runOpenClose_calc :
    ∀ (cs : List OpenCloseCall) (d : HokuyoDriver),
      (d.calibrated_ = true →
        calcOkCount (runOpenClose d cs).2 = 0) ∧
      (d.calibrated_ = false →
        calcOkCount (runOpenClose d cs).2 ≤ 1) := by
  intro cs
  induction cs with
  | nil => intro d; simp [runOpenClose, calcOkCount]
  | cons c cs ih =>
    intro d
    cases c with
    | openC b =>
      have hopen := doOpen_calc d b
      have happ : (runOpenClose d (.openC b :: cs)).2
          = (doOpen d b).2 ++ (runOpenClose (doOpen d b).1 cs).2 := by
        simp [runOpenClose]
      constructor
      · intro h
        obtain ⟨-, hok0, hcal⟩ := hopen.1 h
        rw [happ, calcOkCount_append, hok0,
          (ih (doOpen d b).1).1 hcal]
      · intro h
        rcases hopen.2 h with ⟨h0, hcal⟩ | ⟨h1, hcal⟩
        · rw [happ, calcOkCount_append, h0]
          simpa using (ih (doOpen d b).1).2 hcal
        · rw [happ, calcOkCount_append, h1,
            (ih (doOpen d b).1).1 hcal]
    | closeC b =>
      have hclose := doClose_calc d b
      have happ : (runOpenClose d (.closeC b :: cs)).2
          = (doClose d b).2 ++ (runOpenClose (doClose d b).1 cs).2 := by
        simp [runOpenClose]
      constructor
      · intro h
        rw [happ, calcOkCount_append, hclose.2,
          (ih (doClose d b).1).1 (hclose.1.trans h)]
      · intro h
        rw [happ, calcOkCount_append, hclose.2]
        simpa using (ih (doClose d b).1).2 (hclose.1.trans h)

/-- C5 counterexample: on a fresh driver with `calibrate_time` set,
an open whose `calcLatency` call throws followed by a fully
successful open invokes the device's latency-calibration routine
twice — "executes at most once … regardless of intervening failures"
fails when the failure is the calibration call itself. -/
theorem c5_counterexample :
    calcCount (runOpenClose (initialDriver testConfigCal)
        [.openC calFailOpen, .openC allOkOpen]).2 = 2 ∧
    ¬ calcCount (runOpenClose (initialDriver testConfigCal)
        [.openC calFailOpen, .openC allOkOpen]).2 ≤ 1 := by
  refine ⟨by decide, by decide⟩

/-- C5 amended: across every sequence of opens and closes on a driver
constructed with the calibration flag false, at most one
`calcLatency` call runs to successful completion; once the gate is
set no calibration call is made at all; and `doClose` never resets
the gate. -/
theorem c5_calibration_gate :
    ∀ (cfg : HokuyoConfig) (cs : List OpenCloseCall),
      calcOkCount (runOpenClose (initialDriver cfg) cs).2 ≤ 1 ∧
      (∀ (d : HokuyoDriver) (b : OpenBehavior), d.calibrated_ = true →
        calcCount (doOpen d b).2 = 0) ∧
      (∀ (d : HokuyoDriver) (b : CloseBehavior),
        (doClose d b).1.calibrated_ = d.calibrated_) := by
  intro cfg cs
  refine ⟨(runOpenClose_calc cs (initialDriver cfg)).2 rfl,
    fun d b h => ((doOpen_calc d b).1 h).1,
    fun d b => (doClose_calc d b).1⟩

/-- Witness for C5 amended: the failing-then-successful open sequence
stays within one successful calibration, and a reopened
already-calibrated driver performs zero calibration calls. -/
theorem c5_calibration_gate_witness :
    calcOkCount (runOpenClose (initialDriver testConfigCal)
        [.openC calFailOpen, .openC allOkOpen]).2 ≤ 1 ∧
    calcCount (doOpen
        (doOpen (initialDriver testConfigCal) allOkOpen).1
        allOkOpen).2 = 0 :=
  ⟨(c5_calibration_gate testConfigCal
      [.openC calFailOpen, .openC allOkOpen]).1,
   (c5_calibration_gate testConfigCal []).2.1
     (doOpen (initialDriver testConfigCal) allOkOpen).1 allOkOpen
     (by decide)⟩

/-- Every `OperatingState` value is one of the three named states. -/
theorem OperatingState.mem_three (s : OperatingState) :
    s = .CLOSED ∨ s = .OPENED ∨ s = .RUNNING := by
  cases s <;> simp

/-- Each single lifecycle call satisfies the §4.1 transition table,
from any pre-state. -/
theorem matchesTable_step (d : HokuyoDriver) (c : LifecycleCall) :
    matchesTable d c (stepCall d c) := by
  cases c with
  | openC b =>
    refine ⟨OperatingState.mem_three _, fun _ => ⟨fun h => ?_, fun h => ?_⟩⟩
    · simp [stepCall, doOpen_state d b, h]
    · simp [stepCall, doOpen_state d b, h]
  | closeC b =>
    exact ⟨OperatingState.mem_three _, by simp [stepCall, doClose]⟩
  | startC b =>
    refine ⟨OperatingState.mem_three _, fun hpre => ⟨fun h => ?_, fun h => ?_⟩⟩
    · exact (doStart_state d b).1 h
    · rcases (doStart_state d b).2 h with h1 | h1
      · exact Or.inr h1
      · exact Or.inl (h1.trans hpre)
  | stopC b =>
    refine ⟨OperatingState.mem_three _, fun h => ?_, fun h => ?_⟩
    · cases hj : b.joinOk <;> cases ht : d.scan_thread_ <;>
        simp [stepCall, doStop, h, hj, ht]
    · simp [stepCall, doStop, h]

/-- Every call sequence from every driver satisfies the table
step-by-step. -/
theorem stepsOk_all :
    ∀ (cs : List LifecycleCall) (d : HokuyoDriver), stepsOk d cs := by
  intro cs
  induction cs with
  | nil => intro d; trivial
  | cons c cs ih => exact fun d => ⟨matchesTable_step d c, ih (stepCall d c)⟩

/-- C1: from the initial `CLOSED` state, every sequence of lifecycle
calls (with arbitrary device behaviour at each call) keeps the state
inside {CLOSED, OPENED, RUNNING} and makes every call's post-state
match the §4.1 transition table: open from `CLOSED` goes to `OPENED`
on success and `CLOSED` on failure, close always ends `CLOSED`, start
from `OPENED` goes to `RUNNING` on success and `OPENED` or `CLOSED`
on failure, stop goes `RUNNING → OPENED` and is a no-op otherwise. -/
theorem c1_transition_table (cfg : HokuyoConfig)
    (cs : List LifecycleCall) : stepsOk (initialDriver cfg) cs :=
  stepsOk_all cs (initialDriver cfg)
